import Mathlib

/-!
Verification of the trade-map dashboard core (lithium/cobalt trade choropleth).

The embedding models the three core components of the script
`trade_map_Li-Co.py`:

* the country resolver (`country_to_iso3` plus the `country_fix`
  exception table, applied per row via the `partner_iso3` lambda);
* the data loader / normalizer (column-name normalization, string-field
  trimming, year derivation, ISO3 resolution, numeric coercion and the
  dropna steps), both at the dataframe level (dynamic columns, for the
  column-existence guards) and at the record level;
* the query/filter engine (monthly exact-match subset, and the annual
  subset that groups by `(partner, partner_iso3)` and sums `netwgt`),
  plus the log10 display transform applied to the subset.

External collaborators are parameters: the pycountry lookup is an
abstract `String → Except Unit String` (`Except.error` models the
`LookupError` it raises on a failed or ambiguous lookup), and pandas
`to_numeric(errors="coerce")` is an abstract `String → Option ℤ`
(the integral numeric domain stands in for the float column)
(`none` models the NaN produced for a non-parseable value).
-/

namespace TradeMap

/-! ## String primitives

Executable models of the Python / pandas string operations the script
uses (`str.strip`, `str.lower`, `str.replace` of the BOM, `str[:4]`),
written over the character list so that they evaluate. -/

/-- Python `str.strip()`: remove leading and trailing whitespace. -/
def strip (s : String) : String :=
  ⟨(((s.data.dropWhile Char.isWhitespace).reverse).dropWhile
      Char.isWhitespace).reverse⟩

/-- Python `str.lower()`: lowercase every character. -/
def lower (s : String) : String :=
  ⟨s.data.map Char.toLower⟩

/-- `str.replace(BOM, "")`: remove every byte-order mark. -/
def strip_bom (s : String) : String :=
  ⟨s.data.filter (fun c => !(c == '\uFEFF'))⟩

/-- Python `s[:n]`: the first `n` characters. -/
def str_take (s : String) (n : Nat) : String :=
  ⟨s.data.take n⟩

/-- The curated exception table `country_fix` from the source: raw
partner spellings mapped to ISO3 codes. -/
def country_fix : List (String × String) :=
  [("Korea, Rep.", "KOR"),
   ("Republic of Korea", "KOR"),
   ("United States", "USA"),
   ("Russian Federation", "RUS"),
   ("Viet Nam", "VNM"),
   ("Iran (Islamic Republic of)", "IRN"),
   ("Lao People\x27s Democratic Republic", "LAO"),
   ("Czechia", "CZE"),
   ("Dominican Rep.", "DOM")]

/-- `country_to_iso3` from the source: try the generic pycountry lookup
and return its code; on `LookupError` (modelled by `Except.error`)
return `none` instead of propagating the failure. -/
def country_to_iso3 (lookup : String → Except Unit String) (name : String) :
    Option String :=
  match lookup name with
  | Except.ok c => some c
  | Except.error _ => none

/-- The per-row resolution lambda used to build `partner_iso3`:
`country_fix[x[partner]] if x[partner] in country_fix else
country_to_iso3(x[partner])` — the exception table is consulted before
the generic lookup. -/
def resolvePartner (lookup : String → Except Unit String) (name : String) :
    Option String :=
  match country_fix.lookup name with
  | some c => some c
  | none => country_to_iso3 lookup name

/-! ## Dataframe-level model (dynamic columns)

A `Frame` is an association list from column name to the column's
values; it models the pandas dataframe for the steps whose behavior
depends on which columns exist. -/

/-- A dataframe as an ordered association list of named columns. -/
abbrev Frame := List (String × List String)

/-- Column-name cleanup from `load_data`: strip whitespace, lowercase,
remove the byte-order mark. -/
def normalize_columns (f : Frame) : Frame :=
  f.map (fun p => (strip_bom (lower (strip p.1)), p.2))

/-- Apply `g` to every value of column `c` when it exists; no-op
otherwise. -/
def map_col (f : Frame) (c : String) (g : String → String) : Frame :=
  f.map (fun p => if p.1 = c then (p.1, p.2.map g) else p)

/-- The guarded trimming loop: `for col in [period, cmdcode, reporter,
partner]: if col in data.columns: data[col] = data[col].astype(str).str.strip()`. -/
def trim_columns (f : Frame) : Frame :=
  ["period", "cmdcode", "reporter", "partner"].foldl
    (fun acc col =>
      if (acc.lookup col).isSome then map_col acc col strip else acc)
    f

/-- Assign column `c` the values `vals`: overwrite it in place when it
exists, append it otherwise (pandas column assignment). -/
def set_col (f : Frame) (c : String) (vals : List String) : Frame :=
  if (f.lookup c).isSome then
    f.map (fun p => if p.1 = c then (p.1, vals) else p)
  else f ++ [(c, vals)]

/-- The guarded year derivation: `if period in data.columns:
data[year] = data[period].astype(str).str[:4]`. -/
def derive_year (f : Frame) : Frame :=
  match f.lookup "period" with
  | some vals => set_col f "year" (vals.map (fun s => str_take s 4))
  | none => f

/-- The column-level portion of `load_data`: normalize column names,
trim the four string columns, derive the year column. -/
def load_frame (f : Frame) : Frame :=
  derive_year (trim_columns (normalize_columns f))

/-- The names of the columns of a frame. -/
def col_names (f : Frame) : List String := f.map (fun p => p.1)

/-! ## Record-level model -/

/-- One raw CSV row before normalization. `netwgt` is the raw cell:
`none` models a missing (NaN) value, `some s` a present string. -/
structure RawRow where
  period : String
  cmdcode : String
  reporter : String
  partner : String
  netwgt : Option String
deriving DecidableEq

/-- One row of the normalized dataset. `partner_iso3` and `netwgt` are
nullable columns, as in the dataframe; the loader drops nulls. -/
structure Row where
  period : String
  year : String
  cmdcode : String
  reporter : String
  partner : String
  partner_iso3 : Option String
  netwgt : Option ℤ
deriving DecidableEq

/-- Normalize one row: trim the string fields, derive `year` from the
trimmed `period`, resolve `partner_iso3` via the resolver, coerce
`netwgt` to numeric (`none` for missing or non-parseable). -/
def normalizeRow (lookup : String → Except Unit String)
    (toNumeric : String → Option ℤ) (r : RawRow) : Row :=
  { period := strip r.period
    year := str_take (strip r.period) 4
    cmdcode := strip r.cmdcode
    reporter := strip r.reporter
    partner := strip r.partner
    partner_iso3 := resolvePartner lookup (strip r.partner)
    netwgt := r.netwgt.bind toNumeric }

/-- The record-level `load_data`: normalize every row, then drop the
rows whose `partner_iso3` or `netwgt` is null (the
`dropna(subset=[partner_iso3, netwgt])` / `to_numeric` / `dropna`
sequence). -/
def load_data (lookup : String → Except Unit String)
    (toNumeric : String → Option ℤ) (raws : List RawRow) : List Row :=
  (raws.map (normalizeRow lookup toNumeric)).filter
    (fun r => r.partner_iso3.isSome && r.netwgt.isSome)

/-- The `st.cache_data` memoization around `load_data`: a call returns
the cached dataset when one exists and otherwise computes, caches and
returns it. -/
def cached_load (lookup : String → Except Unit String)
    (toNumeric : String → Option ℤ) (raws : List RawRow)
    (cache : Option (List Row)) : List Row × Option (List Row) :=
  match cache with
  | some d => (d, some d)
  | none => (load_data lookup toNumeric raws, some (load_data lookup toNumeric raws))

/-! ## Query/filter engine -/

/-- Monthly subset: exact-match filter on period, commodity code and
reporter, no aggregation. -/
def monthly_subset (rows : List Row) (p c rep : String) : List Row :=
  rows.filter (fun r => r.period == p && r.cmdcode == c && r.reporter == rep)

/-- Annual pre-aggregation filter: exact-match on year, commodity code
and reporter. -/
def annual_filter (rows : List Row) (y c rep : String) : List Row :=
  rows.filter (fun r => r.year == y && r.cmdcode == c && r.reporter == rep)

/-- Sum of `netwgt` over the rows of one `(partner, partner_iso3)`
group (pandas `groupby(...).sum()` skips nulls). -/
def group_sum (rows : List Row) (k : String × Option String) : ℤ :=
  ((rows.filter (fun r => r.partner == k.1 && r.partner_iso3 == k.2)).map
    (fun r => r.netwgt.getD 0)).sum

/-- Annual subset: filter by year/commodity/reporter, then group by
`(partner, partner_iso3)` and sum `netwgt` per group. -/
def annual_subset (rows : List Row) (y c rep : String) :
    List (String × Option String × ℤ) :=
  ((annual_filter rows y c rep).map
      (fun r => (r.partner, r.partner_iso3))).dedup.map
    (fun k => (k.1, k.2, group_sum (annual_filter rows y c rep) k))

/-! ## Presentation transform -/

/-- The display transform `netwgt_log = log10(netwgt.replace(0, nan))`
applied to the subset: every row is kept, and the log column is defined
(`some (log10 w)`) exactly when the weight is positive — zero is
replaced by NaN before the log, and the log of a negative number is
NaN. `log10` is the abstract real logarithm restricted to the positive
inputs it is actually applied to. -/
def netwgt_log_column (log10 : ℤ → ℚ)
    (rows : List (String × Option String × ℤ)) :
    List ((String × Option String × ℤ) × Option ℚ) :=
  rows.map (fun r => (r, if 0 < r.2.2 then some (log10 r.2.2) else none))

/-! ## Commodity descriptions -/

/-- The `hs_desc` description table from the source. -/
def hs_desc : List (String × String) :=
  [("253090", "Arsenic sulfides, alunite, pozzuolana, earth colours and other mineral substances, n.e.s."),
   ("283691", "Lithium carbonates"),
   ("282520", "Lithium oxide and hydroxide"),
   ("282739", "Chlorides (excl. ammonium, calcium, magnesium, aluminium, nickel, and mercury chloride)"),
   ("282690", "Fluorosilicates, fluoroaluminates and other complex fluorine salts (excl. sodium hexafluoroaluminate “synthetic cryolite” and inorganic or organic compounds of mercury)"),
   ("282619", "Fluorides (excl. of aluminium and mercury)"),
   ("260500", "Cobalt ores and concentrates"),
   ("282200", "Cobalt oxides and hydroxides; commercial cobalt oxides"),
   ("810520", "Cobalt mattes and other intermediate products of cobalt metallurgy; unwrought cobalt; cobalt powders")]

/-- What the page shows for a commodity code: the description when the
code is in `hs_desc` (`st.info` branch), a no-description notice
otherwise (`st.warning` branch). -/
inductive HsNotice where
  | info (desc : String)
  | noDescription
deriving DecidableEq

/-- The description-display logic: `if cmdcode in hs_desc: st.info(...)
else: st.warning(...)`. -/
def hs_desc_display (code : String) : HsNotice :=
  match hs_desc.lookup code with
  | some d => HsNotice.info d
  | none => HsNotice.noDescription

/-! ## Concrete fixtures for the closed instances -/

/-- A generic lookup that always raises: every name misses the ISO
list. -/
def failing_lookup : String → Except Unit String := fun _ => Except.error ()

/-- A numeric coercion that parses the three example weights. -/
def example_toNumeric : String → Option ℤ := fun s =>
  if s = "100" then some 100
  else if s = "200" then some 200
  else if s = "300" then some 300 else none

/-- Three monthly records of the same year, commodity, reporter and
partner with weights 100, 200 and 300. -/
def three_months : List RawRow :=
  [⟨"201301", "283691", "KOR", "Viet Nam", some "100"⟩,
   ⟨"201302", "283691", "KOR", "Viet Nam", some "200"⟩,
   ⟨"201303", "283691", "KOR", "Viet Nam", some "300"⟩]

/-! ## Helper lemmas -/

/-- A name absent from the columns looks up to nothing. -/
theorem lookup_eq_none_of_not_mem (f : Frame) (c : String)
    (h : c ∉ col_names f) : f.lookup c = none := by
  induction f with
  | nil => rfl
  | cons p t ih =>
      simp only [col_names, List.map_cons, List.mem_cons, not_or] at h
      have hb : (c == p.1) = false := beq_eq_false_iff_ne.mpr h.1
      simp only [List.lookup, hb]
      exact ih (by simpa [col_names] using h.2)

/-- Mapping over one column leaves the column names unchanged. -/
theorem col_names_map_col (f : Frame) (c : String) (g : String → String) :
    col_names (map_col f c g) = col_names f := by
  induction f with
  | nil => rfl
  | cons p t ih =>
      by_cases hp : p.1 = c <;>
        simp only [map_col, col_names, List.map_cons, if_pos, if_neg, hp,
          if_true, if_false, ite_true, ite_false] <;>
        simpa [map_col, col_names] using ih

/-- The guarded trimming fold leaves the column names unchanged. -/
theorem col_names_trim_foldl (cols : List String) (f : Frame) :
    col_names (cols.foldl
      (fun acc col =>
        if (acc.lookup col).isSome then map_col acc col strip else acc)
      f) = col_names f := by
  induction cols generalizing f with
  | nil => rfl
  | cons c t ih =>
      simp only [List.foldl_cons]
      rw [ih]
      by_cases h : (f.lookup c).isSome <;> simp [h, col_names_map_col]

/-- Every retained row of `load_data` is the normalization of a source
row and passed the null filter. -/
theorem load_data_mem (lookup : String → Except Unit String)
    (toNumeric : String → Option ℤ) (raws : List RawRow) (r : Row)
    (h : r ∈ load_data lookup toNumeric raws) :
    ∃ raw ∈ raws, r = normalizeRow lookup toNumeric raw ∧
      (r.partner_iso3.isSome && r.netwgt.isSome) = true := by
  unfold load_data at h
  have h1 := List.mem_of_mem_filter h
  have h2 := List.of_mem_filter h
  obtain ⟨raw, hraw, hr⟩ := List.mem_map.mp h1
  exact ⟨raw, hraw, hr.symm, h2⟩

/-- In the normalized dataset, `partner_iso3` is determined by
`partner` through the resolver. -/
theorem load_data_iso3 (lookup : String → Except Unit String)
    (toNumeric : String → Option ℤ) (raws : List RawRow) (r : Row)
    (h : r ∈ load_data lookup toNumeric raws) :
    r.partner_iso3 = resolvePartner lookup r.partner := by
  obtain ⟨raw, -, rfl, -⟩ := load_data_mem lookup toNumeric raws r h
  rfl

/-! ## Claims -/

/-- C2: for every partner name in the curated exception table,
resolution returns exactly the mapped code, for every behavior of the
generic lookup; in particular the two spec examples hold for every
lookup. -/
theorem resolve_prefers_exception_table
    (lookup : String → Except Unit String) (name c : String)
    (h : country_fix.lookup name = some c) :
    resolvePartner lookup name = some c ∧
    resolvePartner lookup "Korea, Rep." = some "KOR" ∧
    resolvePartner lookup "Viet Nam" = some "VNM" := by
  refine ⟨?_, rfl, rfl⟩
  unfold resolvePartner
  rw [h]

/-- Witness for C2: the exception table maps "Korea, Rep." to "KOR",
and resolution returns it even against a generic lookup that answers
"ZZZ" for every name. -/
theorem resolve_prefers_exception_table_witness :
    country_fix.lookup "Korea, Rep." = some "KOR" ∧
    resolvePartner (fun _ => Except.ok "ZZZ") "Korea, Rep." = some "KOR" :=
  ⟨by decide,
   (resolve_prefers_exception_table (fun _ => Except.ok "ZZZ")
     "Korea, Rep." "KOR" (by decide)).1⟩

/-- C6: when the generic lookup raises (no match or ambiguous match),
`country_to_iso3` returns null rather than propagating the failure, and
a name outside the exception table then resolves to null. -/
theorem resolver_null_on_failed_lookup
    (lookup : String → Except Unit String) (name : String)
    (h : lookup name = Except.error ()) :
    country_to_iso3 lookup name = none ∧
    (country_fix.lookup name = none → resolvePartner lookup name = none) := by
  constructor
  · unfold country_to_iso3
    rw [h]
  · intro hfix
    unfold resolvePartner
    rw [hfix]
    unfold country_to_iso3
    rw [h]

/-- Witness for C6: "Other Asia, nes" with an always-failing lookup
resolves to null. -/
theorem resolver_null_on_failed_lookup_witness :
    country_to_iso3 (fun _ => Except.error ()) "Other Asia, nes" = none ∧
    resolvePartner (fun _ => Except.error ()) "Other Asia, nes" = none := by
  have h := resolver_null_on_failed_lookup (fun _ => Except.error ())
    "Other Asia, nes" rfl
  exact ⟨h.1, h.2 (by decide)⟩

/-- C9: the description display is total: code "283691" shows
"Lithium carbonates", and any code absent from `hs_desc` shows the
no-description notice instead of failing. -/
theorem hs_desc_total (code : String) (h : hs_desc.lookup code = none) :
    hs_desc_display "283691" = HsNotice.info "Lithium carbonates" ∧
    hs_desc_display code = HsNotice.noDescription := by
  constructor
  · rfl
  · unfold hs_desc_display
    rw [h]

/-- Witness for C9: the unknown code "999999" yields the
no-description notice. -/
theorem hs_desc_total_witness :
    hs_desc_display "283691" = HsNotice.info "Lithium carbonates" ∧
    hs_desc_display "999999" = HsNotice.noDescription :=
  hs_desc_total "999999" (by decide)

/-- C7: the cached loader is idempotent: a second call on the same
source returns the same dataset and the same cache as the first, with
no accumulation, and the first call returns exactly `load_data` of the
source. -/
theorem loader_idempotent (lookup : String → Except Unit String)
    (toNumeric : String → Option ℤ) (raws : List RawRow) :
    (cached_load lookup toNumeric raws
        (cached_load lookup toNumeric raws none).2).1
      = (cached_load lookup toNumeric raws none).1 ∧
    (cached_load lookup toNumeric raws
        (cached_load lookup toNumeric raws none).2).2
      = (cached_load lookup toNumeric raws none).2 ∧
    (cached_load lookup toNumeric raws none).1
      = load_data lookup toNumeric raws :=
  ⟨rfl, rfl, rfl⟩

/-- C5: every record of the normalized dataset has `year` equal to the
first four characters of its `period`. -/
theorem year_is_period_prefix (lookup : String → Except Unit String)
    (toNumeric : String → Option ℤ) (raws : List RawRow) (r : Row)
    (h : r ∈ load_data lookup toNumeric raws) :
    r.year = str_take r.period 4 := by
  obtain ⟨raw, -, rfl, -⟩ := load_data_mem lookup toNumeric raws r h
  rfl

/-- Witness for C5: a concrete one-row load where period "201305"
yields year "2013". -/
theorem year_is_period_prefix_witness :
    (⟨"201305", "2013", "283691", "KOR", "Viet Nam", some "VNM",
        some 1⟩ : Row) ∈
      load_data (fun _ => Except.error ()) (fun _ => some 1)
        [⟨"201305", "283691", "KOR", "Viet Nam", some "1"⟩] ∧
    (⟨"201305", "2013", "283691", "KOR", "Viet Nam", some "VNM",
        some 1⟩ : Row).year
      = str_take (⟨"201305", "2013", "283691", "KOR", "Viet Nam", some "VNM",
        some 1⟩ : Row).period 4 :=
  ⟨by decide,
   year_is_period_prefix (fun _ => Except.error ()) (fun _ => some 1)
     [⟨"201305", "283691", "KOR", "Viet Nam", some "1"⟩] _ (by decide)⟩

/-- C10: when the normalized column names lack "period", the guarded
loader steps change no column names — in particular no year column
appears — and the loader returns normally instead of raising. -/
theorem loader_without_period_column (f : Frame)
    (h : "period" ∉ col_names (normalize_columns f)) :
    col_names (load_frame f) = col_names (normalize_columns f) ∧
    ("year" ∉ col_names (normalize_columns f) →
      "year" ∉ col_names (load_frame f)) := by
  have htrim : col_names (trim_columns (normalize_columns f))
      = col_names (normalize_columns f) := col_names_trim_foldl _ _
  have hlook : (trim_columns (normalize_columns f)).lookup "period" = none := by
    apply lookup_eq_none_of_not_mem
    rw [htrim]
    exact h
  have hload : load_frame f = trim_columns (normalize_columns f) := by
    unfold load_frame derive_year
    rw [hlook]
  constructor
  · rw [hload, htrim]
  · intro hy
    rw [hload, htrim]
    exact hy

/-- Witness for C10: a frame with only a cmdcode column loads to a
frame with the same single column and no year column. -/
theorem loader_without_period_column_witness :
    "period" ∉ col_names (normalize_columns [("cmdcode", ["283691"])]) ∧
    col_names (load_frame [("cmdcode", ["283691"])])
      = col_names (normalize_columns [("cmdcode", ["283691"])]) ∧
    "year" ∉ col_names (load_frame [("cmdcode", ["283691"])]) := by
  have h : "period" ∉ col_names (normalize_columns [("cmdcode", ["283691"])]) :=
    by decide
  have h2 := loader_without_period_column [("cmdcode", ["283691"])] h
  exact ⟨h, h2.1, h2.2 (by decide)⟩

/-- C4: the monthly subset holds exactly the source records whose
period, commodity code and reporter equal the selection, with
multiplicity (so each result row is a matching source record, its
`netwgt` unchanged), and nothing else. -/
theorem monthly_subset_exact (rows : List Row) (p c rep : String) (r : Row) :
    (r ∈ monthly_subset rows p c rep ↔
      r ∈ rows ∧ r.period = p ∧ r.cmdcode = c ∧ r.reporter = rep) ∧
    (monthly_subset rows p c rep).count r =
      (if r.period = p ∧ r.cmdcode = c ∧ r.reporter = rep
       then rows.count r else 0) := by
  constructor
  · unfold monthly_subset
    rw [List.mem_filter]
    simp only [Bool.and_eq_true, beq_iff_eq, and_assoc]
  · unfold monthly_subset
    by_cases hp : r.period = p ∧ r.cmdcode = c ∧ r.reporter = rep
    · rw [if_pos hp, List.count_filter]
      simp only [hp.1, hp.2.1, hp.2.2, beq_self_eq_true, Bool.and_self]
    · rw [if_neg hp, List.count_eq_zero]
      intro hmem
      have hf := List.of_mem_filter hmem
      simp only [Bool.and_eq_true, beq_iff_eq] at hf
      exact hp ⟨hf.1.1, hf.1.2, hf.2⟩

/-- Witness for C4: on a concrete two-row dataset the matching row is
kept once with its weight and the other row is excluded. -/
theorem monthly_subset_exact_witness :
    ((⟨"201305", "2013", "283691", "KOR", "Chile", some "CHL",
        some 7⟩ : Row) ∈
      monthly_subset
        [⟨"201305", "2013", "283691", "KOR", "Chile", some "CHL", some 7⟩,
         ⟨"201306", "2013", "283691", "KOR", "Chile", some "CHL", some 9⟩]
        "201305" "283691" "KOR" ↔
      (⟨"201305", "2013", "283691", "KOR", "Chile", some "CHL",
        some 7⟩ : Row) ∈
        [⟨"201305", "2013", "283691", "KOR", "Chile", some "CHL", some 7⟩,
         ⟨"201306", "2013", "283691", "KOR", "Chile", some "CHL", some 9⟩] ∧
      ("201305" : String) = "201305" ∧ ("283691" : String) = "283691" ∧
      ("KOR" : String) = "KOR") :=
  (monthly_subset_exact
    [⟨"201305", "2013", "283691", "KOR", "Chile", some "CHL", some 7⟩,
     ⟨"201306", "2013", "283691", "KOR", "Chile", some "CHL", some 9⟩]
    "201305" "283691" "KOR"
    ⟨"201305", "2013", "283691", "KOR", "Chile", some "CHL", some 7⟩).1

/-- C3 (amended): every record retained by the loader has a non-null
`partner_iso3` and a numeric (non-null) `netwgt`; rows with an
unresolvable partner or a missing/non-parseable `netwgt` are dropped. -/
theorem retained_rows_not_null (lookup : String → Except Unit String)
    (toNumeric : String → Option ℤ) (raws : List RawRow) (r : Row)
    (h : r ∈ load_data lookup toNumeric raws) :
    r.partner_iso3 ≠ none ∧ ∃ q : ℤ, r.netwgt = some q := by
  obtain ⟨raw, -, -, hfilt⟩ := load_data_mem lookup toNumeric raws r h
  rw [Bool.and_eq_true] at hfilt
  constructor
  · intro hnone
    rw [hnone] at hfilt
    simp at hfilt
  · exact Option.isSome_iff_exists.mp hfilt.2

/-- Witness for C3: a concrete retained row has a resolved ISO3 code
and a numeric weight. -/
theorem retained_rows_not_null_witness :
    ((⟨"201401", "2014", "260500", "JPN", "Republic of Korea", some "KOR",
        some 3⟩ : Row) ∈
      load_data (fun _ => Except.error ()) (fun _ => some 3)
        [⟨"201401", "260500", "JPN", "Republic of Korea", some "3"⟩]) ∧
    ((⟨"201401", "2014", "260500", "JPN", "Republic of Korea", some "KOR",
        some 3⟩ : Row).partner_iso3 ≠ none ∧
      ∃ q : ℤ, (⟨"201401", "2014", "260500", "JPN", "Republic of Korea",
        some "KOR", some 3⟩ : Row).netwgt = some q) :=
  ⟨by decide,
   retained_rows_not_null (fun _ => Except.error ()) (fun _ => some 3)
     [⟨"201401", "260500", "JPN", "Republic of Korea", some "3"⟩] _
     (by decide)⟩

/-- Counterexample for C3 as stated: the loader never checks the sign
of `netwgt`, so a row whose weight parses to a negative number is
retained with that negative value. -/
theorem retained_rows_nonneg_cex :
    ∃ r ∈ load_data (fun _ => Except.error ())
        (fun s => if s = "-5" then some (-5) else none)
        [⟨"201305", "283691", "KOR", "Korea, Rep.", some "-5"⟩],
      r.netwgt = some (-5 : ℤ) ∧ (-5 : ℤ) < 0 := by decide

/-- C1: in annual mode, each aggregated row of the subset — the query
filters the normalized dataset by year, commodity code and reporter,
groups by `(partner, partner_iso3)` and sums `netwgt` — carries exactly
the sum of `netwgt` over all monthly records of the normalized dataset
sharing that year, commodity code, reporter and partner. -/
theorem annual_sum_consistent (lookup : String → Except Unit String)
    (toNumeric : String → Option ℤ) (raws : List RawRow) (y c rep : String)
    (p : String) (i : Option String) (w : ℤ)
    (h : (p, i, w) ∈ annual_subset (load_data lookup toNumeric raws) y c rep) :
    w = (((load_data lookup toNumeric raws).filter
        (fun r => r.year == y && r.cmdcode == c && r.reporter == rep &&
          r.partner == p)).map (fun r => r.netwgt.getD 0)).sum := by
  unfold annual_subset at h
  obtain ⟨k, hk, hkeq⟩ := List.mem_map.mp h
  obtain ⟨a, b⟩ := k
  simp only [Prod.mk.injEq] at hkeq
  obtain ⟨rfl, rfl, rfl⟩ := hkeq
  rw [List.mem_dedup] at hk
  obtain ⟨r0, hr0F, hr0eq⟩ := List.mem_map.mp hk
  simp only [Prod.mk.injEq] at hr0eq
  obtain ⟨hpa, hpb⟩ := hr0eq
  have hr0rows : r0 ∈ load_data lookup toNumeric raws := by
    unfold annual_filter at hr0F
    exact List.mem_of_mem_filter hr0F
  have hb : resolvePartner lookup a = b := by
    rw [← hpa, ← hpb]
    exact (load_data_iso3 lookup toNumeric raws r0 hr0rows).symm
  unfold group_sum annual_filter
  rw [List.filter_filter]
  have hfe : (load_data lookup toNumeric raws).filter
      (fun r => (r.partner == a && r.partner_iso3 == b) &&
        (r.year == y && r.cmdcode == c && r.reporter == rep))
      = (load_data lookup toNumeric raws).filter
      (fun r => r.year == y && r.cmdcode == c && r.reporter == rep &&
        r.partner == a) := by
    apply List.filter_congr
    intro r hr
    have hiso := load_data_iso3 lookup toNumeric raws r hr
    cases hpr : (r.partner == a) with
    | false => simp [hpr]
    | true =>
        have hra : r.partner = a := eq_of_beq hpr
        have hib : (r.partner_iso3 == b) = true := by
          rw [hiso, hra, hb]
          exact beq_self_eq_true b
        simp [hpr, hib]
  rw [hfe]

/-- Witness for C1: three monthly records of 100, 200 and 300 for the
same selection and partner aggregate to 600, the sum over those
records. -/
theorem annual_sum_consistent_witness :
    (("Viet Nam", some "VNM", (600 : ℤ)) ∈
      annual_subset (load_data failing_lookup example_toNumeric three_months)
        "2013" "283691" "KOR") ∧
    (600 : ℤ) = (((load_data failing_lookup example_toNumeric
        three_months).filter
        (fun r => r.year == "2013" && r.cmdcode == "283691" &&
          r.reporter == "KOR" && r.partner == "Viet Nam")).map
        (fun r => r.netwgt.getD 0)).sum :=
  ⟨by decide,
   annual_sum_consistent failing_lookup example_toNumeric three_months
     "2013" "283691" "KOR" "Viet Nam" (some "VNM") 600 (by decide)⟩

/-- Counterexample for C8 as stated: a zero-weight row entering the
display transform is not removed — the transformed subset still has it,
with the undefined (no-color) log value. -/
theorem log_keeps_nonpositive_cex :
    (netwgt_log_column (fun z => (z : ℚ)) [("Area X", some "XXX", 0)]).length
      = 1 ∧
    netwgt_log_column (fun z => (z : ℚ)) [("Area X", some "XXX", 0)]
      = [(("Area X", some "XXX", 0), none)] :=
  ⟨rfl, rfl⟩

/-- C8 (amended): the display transform keeps every subset row — rows
with zero or negative `netwgt` are retained, not dropped — and is
total: it assigns a defined log value exactly to positive weights,
while zero or negative weights map to the undefined (no-color) value
instead of crashing. -/
theorem log_transform_total (log10 : ℤ → ℚ)
    (rows : List (String × Option String × ℤ)) :
    (netwgt_log_column log10 rows).length = rows.length ∧
    ∀ pr ∈ netwgt_log_column log10 rows,
      (pr.2 = none ↔ pr.1.2.2 ≤ 0) ∧
      (0 < pr.1.2.2 → pr.2 = some (log10 pr.1.2.2)) := by
  constructor
  · unfold netwgt_log_column
    exact List.length_map _ _
  · intro pr hpr
    unfold netwgt_log_column at hpr
    obtain ⟨r, hr, rfl⟩ := List.mem_map.mp hpr
    by_cases h0 : 0 < r.2.2
    · exact ⟨by simp [h0, not_le.mpr h0], fun _ => by simp [h0]⟩
    · exact ⟨by simp [h0, le_of_not_lt h0], fun hpos => absurd hpos h0⟩

/-- Witness for C8: a one-row positive-weight subset keeps its row and
gets a defined log value. -/
theorem log_transform_total_witness :
    (netwgt_log_column (fun z => (z : ℚ))
        [("Chile", some "CHL", 5)]).length
      = [("Chile", some "CHL", (5 : ℤ))].length ∧
    ∀ pr ∈ netwgt_log_column (fun z => (z : ℚ)) [("Chile", some "CHL", 5)],
      (pr.2 = none ↔ pr.1.2.2 ≤ 0) ∧
      (0 < pr.1.2.2 → pr.2 = some ((pr.1.2.2 : ℚ))) :=
  log_transform_total (fun z => (z : ℚ)) [("Chile", some "CHL", 5)]

end TradeMap
